import Mathlib

/-!
Shallow embedding of `src/tok_gen.py`, a JWT-style token issue/verify CLI.

Conventions of the embedding:
* Python strings are Lean `String`; Python `None` for an optional string
  argument is `Option.none`.
* Time is modelled as integer Unix seconds (`Int`): `datetime.now()` becomes an
  explicit `now : Int` parameter, and `int(ts.timestamp())` truncation is
  absorbed into working with whole seconds.
* The environment variable `JWT_SECRET` is an explicit `env : Option String`
  parameter (`none` = unset).
* Fallible Python code returns `Except PyExc α`; an `Except.error` models an
  exception propagating out of the modelled operation.
* The external PyJWT library is modelled by its contract: an encoded token is
  an abstract `Token` carrying the payload and signing key; `jwtDecode` checks
  the key and expiry (signature first, then `exp`; expired when now ≥ exp) and
  an arbitrary string fed to the verifier is a `Token.malformed`.
-/

namespace TokGen

/-- Exception values that can propagate out of the modelled Python code.
`valueError` covers both `ValueError` raised by `int()` and the `ValueError`
re-raised by `verify_token`; `otherExc` stands for any other exception type. -/
inductive PyExc where
| valueError (msg : String)
| otherExc (ty : String) (msg : String)
deriving DecidableEq, Repr

/-- Python truthiness of an optional string: `None` and `""` are falsy. -/
def truthyOptStr : Option String → Bool
| none => false
| some s => s ≠ ""

/-- Whitespace accepted (and stripped) by Python `int(str)` (ASCII subset). -/
def isPySpace (c : Char) : Bool :=
  c = ' ' || c = '\t' || c = '\n' || c = '\r' || c = '\x0b' || c = '\x0c'

/-- Numeric value of a decimal digit character. -/
def digitVal (c : Char) : Nat := c.toNat - 48

/-- Digit run of Python `int(str)` after the first digit: decimal digits with
single underscores allowed strictly between digits. -/
def pyDigitsAux : Nat → List Char → Option Nat
| acc, [] => some acc
| acc, '_' :: c :: cs =>
    if c.isDigit then pyDigitsAux (acc * 10 + digitVal c) cs else none
| acc, c :: cs =>
    if c.isDigit then pyDigitsAux (acc * 10 + digitVal c) cs else none

/-- Unsigned digit string as parsed by Python `int(str)`: nonempty, starts
with a digit, underscores only between digits. -/
def pyIntCore : List Char → Option Nat
| [] => none
| '_' :: _ => none
| l => pyDigitsAux 0 l

/-- Strip leading and trailing whitespace, as Python `int(str)` does. -/
def pyStrip (l : List Char) : List Char :=
  ((l.dropWhile isPySpace).reverse.dropWhile isPySpace).reverse

/-- Model of Python `int(str)` (ASCII decimal): optional surrounding
whitespace, optional single sign, then digits. `none` models the
`ValueError` raised on anything else. -/
def pyInt (s : String) : Option Int :=
  match pyStrip s.toList with
  | '+' :: rest => (pyIntCore rest).map (fun n => (n : Int))
  | '-' :: rest => (pyIntCore rest).map (fun n => -(n : Int))
  | l => (pyIntCore l).map (fun n => (n : Int))

/-- Message of the `ValueError` raised by Python `int(str)` on a bad literal
(the CPython message also quotes the literal; the quoting is elided). -/
def intParseErrMsg (s : String) : String :=
  "invalid literal for int() with base 10: " ++ s

/-- Python `s[:-1]`: the string without its last character ("" stays ""). -/
def pyDropLast (s : String) : String := ⟨s.toList.dropLast⟩

/-- Python `s.endswith(c)` for a single-character suffix. -/
def endsWithChar (s : String) (c : Char) : Bool :=
  match s.toList.getLast? with
  | some c2 => c2 == c
  | none => false

/-- Claims record carried by a token: `sub`, `iat`, `exp`, and the optional
`name` entry (`none` when the `name` key is absent from the payload dict). -/
structure Payload where
  sub : String
  iat : Int
  exp : Int
  name : Option String
deriving DecidableEq, Repr

/-- Abstract model of an encoded JWT: `signed payload key` is the result of
`jwt.encode(payload, key, algorithm="HS256")`; `malformed raw` is any string
that is not such an encoding. -/
inductive Token where
| signed (payload : Payload) (key : String)
| malformed (raw : String)
deriving DecidableEq, Repr

/-- Failure kinds of `jwt.decode`: `jwt.ExpiredSignatureError` and (its
superclass family) `jwt.InvalidTokenError`. -/
inductive JwtError where
| expiredSignature
| invalidToken
deriving DecidableEq, Repr

/-- Contract of `jwt.encode(payload, key, algorithm="HS256")`. -/
def jwtEncode (p : Payload) (key : String) : Token := .signed p key

/-- Contract of `jwt.decode(token, key, algorithms=["HS256"])` at time `now`:
malformed input or a key mismatch is an `InvalidTokenError`; a token whose
`exp` is at or before `now` is an `ExpiredSignatureError`. -/
def jwtDecode (t : Token) (key : String) (now : Int) : Except JwtError Payload :=
  match t with
  | .malformed _ => .error .invalidToken
  | .signed p k =>
      if k = key then
        if p.exp ≤ now then .error .expiredSignature else .ok p
      else .error .invalidToken

/-- Hardcoded fallback secret (line 27 / line 67 of `tok_gen.py`). -/
def DEFAULT_SECRET : String := "your-secret-key-here-replace-in-production"

/-- Model of `os.environ.get("JWT_SECRET", DEFAULT_SECRET)`. -/
def osEnvironGetJwtSecret (env : Option String) : String :=
  match env with
  | some e => e
  | none => DEFAULT_SECRET

/-- Line 27: `secret = secret or os.environ.get("JWT_SECRET", ...)` in
`create_token`. -/
def createResolveSecret (secret : Option String) (env : Option String) : String :=
  if truthyOptStr secret then secret.getD "" else osEnvironGetJwtSecret env

/-- Line 67: `secret = secret or os.environ.get("JWT_SECRET", ...)` in
`verify_token`. -/
def verifyResolveSecret (secret : Option String) (env : Option String) : String :=
  if truthyOptStr secret then secret.getD "" else osEnvironGetJwtSecret env

/-- Lines 30-35 of `create_token`: parse the `expires_in` shorthand into a
number of seconds. A trailing `h` means `int(prefix)` hours, a trailing `d`
means `int(prefix)` days, anything else defaults to 24 hours; a failing
`int()` call raises (is an `Except.error`). -/
def parseExpiresIn (expires_in : String) : Except PyExc Int :=
  if endsWithChar expires_in 'h' then
    match pyInt (pyDropLast expires_in) with
    | some n => .ok (n * 3600)
    | none => .error (.valueError (intParseErrMsg (pyDropLast expires_in)))
  else if endsWithChar expires_in 'd' then
    match pyInt (pyDropLast expires_in) with
    | some n => .ok (n * 86400)
    | none => .error (.valueError (intParseErrMsg (pyDropLast expires_in)))
  else .ok 86400

/-- Lines 8-54: `create_token(subject, name, expires_in, secret)` invoked at
time `now` with environment `env`. Resolves the secret, parses the duration,
stamps `iat := now` and `exp := now + duration`, adds `name` only when truthy
(`if name:`), and signs. The diagnostic `print` of the payload is a side
effect not modelled. -/
def create_token (subject : String) (name : Option String) (expires_in : String)
    (secret : Option String) (env : Option String) (now : Int) :
    Except PyExc Token :=
  let key := createResolveSecret secret env
  match parseExpiresIn expires_in with
  | .error e => .error e
  | .ok d =>
      let issued_at := now
      let expires_at := now + d
      let payload : Payload :=
        { sub := subject, iat := issued_at, exp := expires_at,
          name := if truthyOptStr name then name else none }
      .ok (jwtEncode payload key)

/-- Lines 56-74: `verify_token(token, secret)` invoked at time `now` with
environment `env`. Decodes with the resolved secret; re-raises
`ExpiredSignatureError` as `ValueError "Token has expired"` and
`InvalidTokenError` as `ValueError "Invalid token"`. -/
def verify_token (token : Token) (secret : Option String) (env : Option String)
    (now : Int) : Except PyExc Payload :=
  let key := verifyResolveSecret secret env
  match jwtDecode token key now with
  | .ok payload => .ok payload
  | .error .expiredSignature => .error (.valueError "Token has expired")
  | .error .invalidToken => .error (.valueError "Invalid token")

/-- One line printed to stdout: either plain text or the encoded token
(whose concrete serialization the model leaves abstract). -/
inductive Out where
| line (s : String)
| tokenOut (t : Token)
deriving DecidableEq, Repr

/-- Lines 94-95: the `key: value` lines printed for a decoded payload, in the
dict insertion order `sub`, `iat`, `exp`, then `name` when present. -/
def payloadItems (p : Payload) : List Out :=
  [.line ("sub: " ++ p.sub), .line ("iat: " ++ toString p.iat),
   .line ("exp: " ++ toString p.exp)] ++
  (match p.name with
   | some n => [Out.line ("name: " ++ n)]
   | none => [])

/-- Namespace produced by `parser.parse_args()` (lines 78-85): `subject` is a
plain `String` because `--subject` is declared `required=True`; `expires`
holds its default `"24h"` when the flag is absent. The token string, when
present, is modelled as the `Token` it decodes to (or `Token.malformed`). -/
structure Args where
  subject : String
  name : Option String
  expires : String
  secret : Option String
  verify : Bool
  token : Option Token
deriving DecidableEq, Repr

/-- Truthiness of `args.token` (line 88, `if not args.token`): absent (`None`)
and the empty string are falsy; any other token string is truthy. -/
def tokenTruthy : Option Token → Bool
| none => false
| some (.malformed r) => r ≠ ""
| some (.signed _ _) => true

/-- Lines 87-100: the dispatcher run on parsed arguments, at time `now` with
environment `env`. `Except.ok (code, out)` is normal termination with that
exit status (the explicit `exit(1)` included) and printed output;
`Except.error e` is an exception escaping `__main__` (the interpreter then
terminates abnormally with a traceback, not with status 0). Only `ValueError`
is caught around `verify_token`. -/
def mainDispatch (a : Args) (env : Option String) (now : Int) :
    Except PyExc (Nat × List Out) :=
  if a.verify then
    if tokenTruthy a.token = false then
      .ok (1, [.line "Error: --token is required when using --verify"])
    else
      match verify_token (a.token.getD (.malformed "")) a.secret env now with
      | .ok decoded => .ok (0, .line "Token is valid. Payload:" :: payloadItems decoded)
      | .error (.valueError m) => .ok (0, [.line ("Error: " ++ m)])
      | .error e => .error e
  else
    match create_token a.subject a.name a.expires a.secret env now with
    | .ok tok => .ok (0, [.tokenOut tok])
    | .error e => .error e

/-- Raw command line before `argparse` validation: which flags were supplied
and with what values ( `none` = flag absent). -/
structure RawArgs where
  subject : Option String
  name : Option String
  expires : Option String
  secret : Option String
  verify : Bool
  token : Option Token
deriving DecidableEq, Repr

/-- Line 85 `parser.parse_args()` per the declarations on lines 78-83:
`--subject` is `required=True`, so argparse aborts with a usage error and
process exit status 2 whenever it is absent, in both modes; `--expires`
defaults to `"24h"`. -/
def parse_args (r : RawArgs) : Except Nat Args :=
  match r.subject with
  | none => .error 2
  | some s =>
      .ok { subject := s, name := r.name,
            expires := r.expires.getD "24h", secret := r.secret,
            verify := r.verify, token := r.token }

/-- The whole `__main__` block: argparse (which on failure prints usage and
exits 2) followed by the dispatcher. -/
def cliMain (r : RawArgs) (env : Option String) (now : Int) :
    Except PyExc (Nat × List Out) :=
  match parse_args r with
  | .error code => .ok (code, [.line "usage: tok_gen.py ... the following arguments are required: --subject/-s"])
  | .ok a => mainDispatch a env now

/-! ## Helper lemmas -/

/-- The two inline secret-resolution expressions (line 27 and line 67) are the
same function. -/
theorem resolveSecret_eq (secret env : Option String) :
    createResolveSecret secret env = verifyResolveSecret secret env := rfl

/-- `endsWithChar` re-expressed through `Option` equality. -/
theorem endsWithChar_eq_last (s : String) (c : Char) :
    endsWithChar s c = (s.toList.getLast? == some c) := by
  unfold endsWithChar
  cases s.toList.getLast? <;> simp

/-- A string ending in `c1` does not end in a different `c2`. -/
theorem endsWithChar_ne (s : String) (c1 c2 : Char) (h : endsWithChar s c1 = true)
    (hne : c1 ≠ c2) : endsWithChar s c2 = false := by
  rw [endsWithChar_eq_last] at h ⊢
  simp only [beq_iff_eq] at h
  have h2 : s.data.getLast? = some c1 := h
  simp [h2, hne]

/-- Shape of `create_token` when duration parsing succeeds. -/
theorem create_token_ok (subject : String) (name : Option String)
    (expires_in : String) (secret env : Option String) (now d : Int)
    (h : parseExpiresIn expires_in = .ok d) :
    create_token subject name expires_in secret env now =
      .ok (.signed { sub := subject, iat := now, exp := now + d,
                     name := if truthyOptStr name then name else none }
            (createResolveSecret secret env)) := by
  unfold create_token
  rw [h]
  rfl

/-- Shape of `create_token` when duration parsing raises. -/
theorem create_token_err (subject : String) (name : Option String)
    (expires_in : String) (secret env : Option String) (now : Int) (e : PyExc)
    (h : parseExpiresIn expires_in = .error e) :
    create_token subject name expires_in secret env now = .error e := by
  unfold create_token
  rw [h]

/-- `verify_token` either returns a payload or raises one of the two
`ValueError`s with its fixed message. -/
theorem verify_token_shape (token : Token) (secret env : Option String) (now : Int) :
    (∃ p, verify_token token secret env now = .ok p) ∨
    verify_token token secret env now = .error (.valueError "Token has expired") ∨
    verify_token token secret env now = .error (.valueError "Invalid token") := by
  cases h : jwtDecode token (verifyResolveSecret secret env) now with
  | ok p => exact Or.inl ⟨p, by simp only [verify_token]; rw [h]⟩
  | error e =>
      cases e with
      | expiredSignature => exact Or.inr (Or.inl (by simp only [verify_token]; rw [h]))
      | invalidToken => exact Or.inr (Or.inr (by simp only [verify_token]; rw [h]))

/-- Decoding a signed token with the key it was signed with, before its
expiry instant, recovers the payload. -/
theorem jwtDecode_signed_ok (p : Payload) (key : String) (now : Int)
    (h : now < p.exp) : jwtDecode (.signed p key) key now = .ok p := by
  simp only [jwtDecode]
  rw [if_pos trivial, if_neg (by omega)]

/-! ## Claims -/

/-- C1: for every non-empty subject `s` and duration shorthand `d` with suffix
`h` or `d` and integer prefix (i.e. `parseExpiresIn d` succeeds with `secs`
seconds), verifying the token created by `create_token s _ d (some k) env now0`
with the same secret `k` at any time `now1` before the expiry instant returns
a claims record whose `sub` equals `s` and whose `exp - iat` equals `secs`. -/
theorem C1_round_trip (s d k : String) (env : Option String) (secs now0 now1 : Int)
    (hs : s ≠ "")
    (hsuffix : endsWithChar d 'h' = true ∨ endsWithChar d 'd' = true)
    (hparse : parseExpiresIn d = .ok secs)
    (hbefore : now1 < now0 + secs) :
    ∃ tok p, create_token s none d (some k) env now0 = .ok tok ∧
      verify_token tok (some k) env now1 = .ok p ∧
      p.sub = s ∧ p.exp - p.iat = secs := by
  refine ⟨.signed { sub := s, iat := now0, exp := now0 + secs, name := none }
            (createResolveSecret (some k) env),
          { sub := s, iat := now0, exp := now0 + secs, name := none },
          ?_, ?_, rfl, show now0 + secs - now0 = secs by omega⟩
  · simpa [truthyOptStr] using
      create_token_ok s none d (some k) env now0 secs hparse
  · have hdec := jwtDecode_signed_ok
      { sub := s, iat := now0, exp := now0 + secs, name := none }
      (createResolveSecret (some k) env) now1 (by simpa using hbefore)
    simp only [verify_token, resolveSecret_eq]
    rw [← resolveSecret_eq, hdec]

/-- Witness for C1 at subject `"alice"`, duration `"2h"`, secret
`"topsecret"`, creation time 0 and verification time 3599. -/
theorem C1_round_trip_witness :
    ∃ tok p, create_token "alice" none "2h" (some "topsecret") none 0 = .ok tok ∧
      verify_token tok (some "topsecret") none 3599 = .ok p ∧
      p.sub = "alice" ∧ p.exp - p.iat = 7200 :=
  C1_round_trip "alice" "2h" "topsecret" none 7200 0 3599 (by decide)
    (Or.inl (by decide)) rfl (by omega)

/-- C2: duration parsing of `create_token` — a trailing `h` with integer
prefix `n` yields `n * 3600` seconds, a trailing `d` yields `n * 86400`
seconds, any other suffix (including none) yields exactly 86400 seconds; in
particular `"24h"` gives 86400, `"7d"` gives 604800, `"30m"` gives 86400. -/
theorem C2_duration_parsing (s : String) :
    (∀ n : Int, endsWithChar s 'h' = true → pyInt (pyDropLast s) = some n →
        parseExpiresIn s = .ok (n * 3600)) ∧
    (∀ n : Int, endsWithChar s 'd' = true → pyInt (pyDropLast s) = some n →
        parseExpiresIn s = .ok (n * 86400)) ∧
    (endsWithChar s 'h' = false → endsWithChar s 'd' = false →
        parseExpiresIn s = .ok 86400) ∧
    parseExpiresIn "24h" = .ok 86400 ∧ parseExpiresIn "7d" = .ok 604800 ∧
    parseExpiresIn "30m" = .ok 86400 := by
  refine ⟨?_, ?_, ?_, rfl, rfl, rfl⟩
  · intro n hh hp
    simp [parseExpiresIn, hh, hp]
  · intro n hd hp
    have hh := endsWithChar_ne s 'd' 'h' hd (by decide)
    simp [parseExpiresIn, hh, hd, hp]
  · intro hh hd
    simp [parseExpiresIn, hh, hd]

/-- Witness for C2 at `"24h"`, `"7d"` and `"30m"`. -/
theorem C2_duration_parsing_witness :
    parseExpiresIn "24h" = .ok (24 * 3600) ∧
    parseExpiresIn "7d" = .ok (7 * 86400) ∧
    parseExpiresIn "30m" = .ok 86400 :=
  ⟨(C2_duration_parsing "24h").1 24 (by decide) rfl,
   (C2_duration_parsing "7d").2.1 7 (by decide) rfl,
   (C2_duration_parsing "30m").2.2.1 (by decide) (by decide)⟩

/-- C3: every call to `verify_token` either returns the decoded claims or
raises a `ValueError` with a human-readable message (`"Token has expired"`
for expiry, `"Invalid token"` for every other validation failure); no other
exception value is ever produced. -/
theorem C3_verify_error_kinds (token : Token) (secret env : Option String)
    (now : Int) :
    (∃ p, verify_token token secret env now = .ok p) ∨
    verify_token token secret env now = .error (.valueError "Token has expired") ∨
    verify_token token secret env now = .error (.valueError "Invalid token") :=
  verify_token_shape token secret env now

/-- C4 counterexample: in issue mode with `--expires xh` the dispatcher does
not exit with code 0 — the `ValueError` raised by `int("x")` inside
`create_token` propagates out of `__main__` uncaught (the process then
terminates abnormally), refuting the claim that every case other than
verify-without-token exits with code 0. -/
theorem C4_counterexample :
    mainDispatch { subject := "alice", name := none, expires := "xh",
                   secret := none, verify := false, token := none } none 0 =
      .error (.valueError (intParseErrMsg "x")) := rfl

/-- C4 amended: the dispatcher exits with code 1 exactly when verify mode is
selected with a falsy token argument (absent or empty); a verification
failure in verify mode still exits 0 (only printing an error line), and issue
mode exits 0 whenever duration parsing succeeds — but when duration parsing
raises, the exception propagates uncaught instead of exiting 0. -/
theorem C4_exit_codes (a : Args) (env : Option String) (now : Int) :
    ((∃ out, mainDispatch a env now = .ok (1, out)) ↔
      a.verify = true ∧ tokenTruthy a.token = false) ∧
    (a.verify = true → tokenTruthy a.token = true →
      ∃ out, mainDispatch a env now = .ok (0, out)) ∧
    (a.verify = false → ∀ d, parseExpiresIn a.expires = .ok d →
      ∃ out, mainDispatch a env now = .ok (0, out)) ∧
    (a.verify = false → ∀ e, parseExpiresIn a.expires = .error e →
      mainDispatch a env now = .error e) := by
  refine ⟨⟨?_, ?_⟩, ?_, ?_, ?_⟩
  · rintro ⟨out, hout⟩
    by_cases hv : a.verify = true
    · by_cases ht : tokenTruthy a.token = true
      · rcases verify_token_shape (a.token.getD (.malformed "")) a.secret env now with
          ⟨p, hp⟩ | hp | hp <;> simp [mainDispatch, hv, ht, hp] at hout
      · exact ⟨hv, by simpa using ht⟩
    · cases hc : create_token a.subject a.name a.expires a.secret env now with
      | ok tok => simp [mainDispatch, hv, hc] at hout
      | error e => simp [mainDispatch, hv, hc] at hout
  · rintro ⟨hv, ht⟩
    refine ⟨[.line "Error: --token is required when using --verify"], ?_⟩
    simp [mainDispatch, hv, ht]
  · intro hv ht
    rcases verify_token_shape (a.token.getD (.malformed "")) a.secret env now with
      ⟨p, hp⟩ | hp | hp
    · refine ⟨.line "Token is valid. Payload:" :: payloadItems p, ?_⟩
      simp [mainDispatch, hv, ht, hp]
    · refine ⟨[.line "Error: Token has expired"], ?_⟩
      simp [mainDispatch, hv, ht, hp]
    · refine ⟨[.line "Error: Invalid token"], ?_⟩
      simp [mainDispatch, hv, ht, hp]
  · intro hv d hd
    refine ⟨[.tokenOut (.signed ⟨a.subject, now, now + d,
        if truthyOptStr a.name then a.name else none⟩
        (createResolveSecret a.secret env))], ?_⟩
    simp [mainDispatch, hv,
      create_token_ok a.subject a.name a.expires a.secret env now d hd]
  · intro hv e he
    simp [mainDispatch, hv,
      create_token_err a.subject a.name a.expires a.secret env now e he]

/-- Witness for C4 amended: exit code 1 for verify mode without a token, exit
code 0 for a plain issue-mode invocation. -/
theorem C4_exit_codes_witness :
    (∃ out, mainDispatch ⟨"alice", none, "24h", none, true, none⟩ none 0 =
      .ok (1, out)) ∧
    (∃ out, mainDispatch ⟨"alice", none, "24h", none, false, none⟩ none 0 =
      .ok (0, out)) :=
  ⟨(C4_exit_codes ⟨"alice", none, "24h", none, true, none⟩ none 0).1.mpr ⟨rfl, rfl⟩,
   (C4_exit_codes ⟨"alice", none, "24h", none, false, none⟩ none 0).2.2.1
     rfl 86400 rfl⟩

/-- C5 counterexample: `create_token` with duration `"0h"` returns a token
whose `exp` equals its `iat` (both 100 here), refuting the invariant
`expires_at > issued_at` for every accepted duration shorthand. -/
theorem C5_counterexample :
    create_token "alice" none "0h" none none 100 =
      .ok (.signed { sub := "alice", iat := 100, exp := 100, name := none }
            DEFAULT_SECRET) ∧
    ¬ ((100 : Int) < 100) :=
  ⟨rfl, by omega⟩

/-- C5 amended: `exp > iat` holds for every duration shorthand whose parsed
value is strictly positive — in particular for every non-`h`/`d` suffix
(which parses to the positive default 86400) — but an `h`/`d` shorthand with
zero or negative integer prefix yields `exp ≤ iat`. -/
theorem C5_exp_gt_iat (s : String) (name : Option String) (expires : String)
    (secret env : Option String) (now d : Int)
    (hd : parseExpiresIn expires = .ok d) (hpos : 0 < d) :
    ∃ p k, create_token s name expires secret env now = .ok (.signed p k) ∧
      p.iat = now ∧ p.exp = now + d ∧ p.iat < p.exp :=
  ⟨{ sub := s, iat := now, exp := now + d,
     name := if truthyOptStr name then name else none },
   createResolveSecret secret env,
   create_token_ok s name expires secret env now d hd,
   rfl, rfl, show now < now + d by omega⟩

/-- Witness for C5 amended at duration `"24h"`. -/
theorem C5_exp_gt_iat_witness :
    ∃ p k, create_token "alice" none "24h" none none 0 = .ok (.signed p k) ∧
      p.iat = 0 ∧ p.exp = 0 + 86400 ∧ p.iat < p.exp :=
  C5_exp_gt_iat "alice" none "24h" none none 0 86400 rfl (by omega)

/-- C6: for both `create_token` and `verify_token` the secret is resolved by
the same function, in three-tier order: a truthy explicit argument wins, else
the `JWT_SECRET` environment variable, else the hardcoded fallback. -/
theorem C6_secret_resolution (arg env : Option String) :
    createResolveSecret arg env = verifyResolveSecret arg env ∧
    (∀ s, arg = some s → s ≠ "" → createResolveSecret arg env = s) ∧
    (∀ e, truthyOptStr arg = false → env = some e →
      createResolveSecret arg env = e) ∧
    (truthyOptStr arg = false → env = none →
      createResolveSecret arg env = DEFAULT_SECRET) := by
  refine ⟨rfl, ?_, ?_, ?_⟩
  · rintro s rfl hs
    simp [createResolveSecret, truthyOptStr, hs]
  · rintro e hf rfl
    simp [createResolveSecret, hf, osEnvironGetJwtSecret]
  · rintro hf rfl
    simp [createResolveSecret, hf, osEnvironGetJwtSecret]

/-- Witness for C6 exercising each tier of the resolution order. -/
theorem C6_secret_resolution_witness :
    createResolveSecret (some "k") (some "e") = "k" ∧
    createResolveSecret none (some "e") = "e" ∧
    createResolveSecret none none = DEFAULT_SECRET :=
  ⟨(C6_secret_resolution (some "k") (some "e")).2.1 "k" rfl (by decide),
   (C6_secret_resolution none (some "e")).2.2.1 "e" (by decide) rfl,
   (C6_secret_resolution none none).2.2.2 (by decide) rfl⟩

/-- C7: because `--subject` is declared `required=True` unconditionally
(line 78), invoking verify mode with a token but without `--subject` is
rejected by argparse with a usage error and exit status 2 — the verifier is
never reached, contradicting the claim that the subject argument is required
only in issue mode. -/
theorem C7_verify_requires_subject :
    parse_args { subject := none, name := none, expires := none, secret := none,
                 verify := true, token := some (.malformed "abc.def.ghi") } =
      .error 2 ∧
    cliMain { subject := none, name := none, expires := none, secret := none,
              verify := true, token := some (.malformed "abc.def.ghi") } none 0 =
      .ok (2, [.line "usage: tok_gen.py ... the following arguments are required: --subject/-s"]) :=
  ⟨rfl, rfl⟩

/-- C8: when the duration shorthand ends in `h` or `d` but its prefix is not
a parseable integer, `create_token` does not catch the failure — the
`ValueError` from the integer conversion propagates out; in every other case
(parseable prefix, or any non-`h`/`d` suffix) `create_token` raises nothing
and returns a token. -/
theorem C8_duration_errors (s : String) (name : Option String) (expires : String)
    (secret env : Option String) (now : Int) :
    ((endsWithChar expires 'h' = true ∨ endsWithChar expires 'd' = true) →
      pyInt (pyDropLast expires) = none →
      create_token s name expires secret env now =
        .error (.valueError (intParseErrMsg (pyDropLast expires)))) ∧
    (∀ n : Int, pyInt (pyDropLast expires) = some n →
      ∃ tok, create_token s name expires secret env now = .ok tok) ∧
    (endsWithChar expires 'h' = false → endsWithChar expires 'd' = false →
      ∃ tok, create_token s name expires secret env now = .ok tok) := by
  refine ⟨?_, ?_, ?_⟩
  · rintro (hh | hd) hp
    · exact create_token_err s name expires secret env now _
        (by simp [parseExpiresIn, hh, hp])
    · have hh := endsWithChar_ne expires 'd' 'h' hd (by decide)
      exact create_token_err s name expires secret env now _
        (by simp [parseExpiresIn, hh, hd, hp])
  · intro n hp
    by_cases hh : endsWithChar expires 'h' = true
    · exact ⟨_, create_token_ok s name expires secret env now (n * 3600)
        (by simp [parseExpiresIn, hh, hp])⟩
    · by_cases hd : endsWithChar expires 'd' = true
      · exact ⟨_, create_token_ok s name expires secret env now (n * 86400)
          (by simp [parseExpiresIn, hh, hd, hp])⟩
      · exact ⟨_, create_token_ok s name expires secret env now 86400
          (by simp [parseExpiresIn, hh, hd])⟩
  · intro hh hd
    exact ⟨_, create_token_ok s name expires secret env now 86400
      (by simp [parseExpiresIn, hh, hd])⟩

/-- Witness for C8: `"xh"` propagates the integer-conversion `ValueError`;
`"2h"` and `"30m"` return tokens. -/
theorem C8_duration_errors_witness :
    create_token "alice" none "xh" none none 0 =
      .error (.valueError (intParseErrMsg (pyDropLast "xh"))) ∧
    (∃ tok, create_token "alice" none "2h" none none 0 = .ok tok) ∧
    (∃ tok, create_token "alice" none "30m" none none 0 = .ok tok) :=
  ⟨(C8_duration_errors "alice" none "xh" none none 0).1 (Or.inl (by decide)) rfl,
   (C8_duration_errors "alice" none "2h" none none 0).2.1 2 rfl,
   (C8_duration_errors "alice" none "30m" none none 0).2.2 (by decide) (by decide)⟩

/-- C9 counterexample: a provided but empty name (`name = some ""`) is not
added to the claims record — `if name:` is false for the empty string, so the
encoded payload carries no `name` entry, refuting the claim for every
provided name. -/
theorem C9_counterexample :
    create_token "alice" (some "") "24h" none none 0 =
      .ok (.signed { sub := "alice", iat := 0, exp := 86400, name := none }
            DEFAULT_SECRET) := rfl

/-- C9 amended: a provided non-empty (truthy) name is added to the claims
record; when no name is provided — and likewise when the provided name is the
empty string — the payload carries exactly `sub`, `iat` and `exp` (its `name`
entry is absent). -/
theorem C9_name_in_payload (s nm expires : String) (secret env : Option String)
    (now d : Int) (hd : parseExpiresIn expires = .ok d) :
    (nm ≠ "" → create_token s (some nm) expires secret env now =
      .ok (.signed { sub := s, iat := now, exp := now + d, name := some nm }
            (createResolveSecret secret env))) ∧
    create_token s none expires secret env now =
      .ok (.signed { sub := s, iat := now, exp := now + d, name := none }
            (createResolveSecret secret env)) ∧
    create_token s (some "") expires secret env now =
      .ok (.signed { sub := s, iat := now, exp := now + d, name := none }
            (createResolveSecret secret env)) := by
  refine ⟨fun hnm => ?_, ?_, ?_⟩
  · simpa [truthyOptStr, hnm] using
      create_token_ok s (some nm) expires secret env now d hd
  · simpa [truthyOptStr] using
      create_token_ok s none expires secret env now d hd
  · simpa [truthyOptStr] using
      create_token_ok s (some "") expires secret env now d hd

/-- Witness for C9 amended at name `"Bob"` and duration `"24h"`. -/
theorem C9_name_in_payload_witness :
    create_token "alice" (some "Bob") "24h" none none 0 =
      .ok (.signed { sub := "alice", iat := 0, exp := 0 + 86400,
                     name := some "Bob" }
            (createResolveSecret none none)) ∧
    create_token "alice" none "24h" none none 0 =
      .ok (.signed { sub := "alice", iat := 0, exp := 0 + 86400, name := none }
            (createResolveSecret none none)) :=
  ⟨(C9_name_in_payload "alice" "Bob" "24h" none none 0 86400 rfl).1 (by decide),
   (C9_name_in_payload "alice" "Bob" "24h" none none 0 86400 rfl).2.1⟩

/-- C10: an empty-string secret argument is treated as absent by both
operations — the truthy check in `secret or ...` makes `secret=""` resolve
exactly as `secret=None` does, falling through to `JWT_SECRET` and then to
the hardcoded fallback, identically in `create_token` and `verify_token`. -/
theorem C10_empty_secret (env : Option String) :
    createResolveSecret (some "") env = createResolveSecret none env ∧
    verifyResolveSecret (some "") env = verifyResolveSecret none env ∧
    createResolveSecret (some "") env = osEnvironGetJwtSecret env ∧
    verifyResolveSecret (some "") env = osEnvironGetJwtSecret env := by
  refine ⟨?_, ?_, ?_, ?_⟩ <;>
    simp [createResolveSecret, verifyResolveSecret, truthyOptStr]

end TokGen
